import Mathlib

/-!
Shallow embedding of the position reconciliation and close routes of
`src/api/routes/position_routes.py` (functions `get_position_details` and
`close_position`).

Monetary quantities (`float` in the source) are modelled as rationals; the
claims under study are about the exact arithmetic the code performs, not
floating-point rounding.  Fallible external calls (the exchange HTTP fetches,
the configuration lookups, the ledger insert) are modelled as explicit inputs
recording the outcome the call would have produced.
-/

namespace PositionRoutes

/-- One row of the exchange's `positionRisk` response, the fields the routes
read: `symbol`, `positionSide`, `entryPrice`, `markPrice`, `positionAmt`,
`leverage`, `initialMargin`. -/
structure LivePosition where
  symbol : String
  positionSide : String
  entryPrice : ℚ
  markPrice : ℚ
  positionAmt : ℚ
  leverage : ℚ
  initialMargin : ℚ
  deriving DecidableEq

/-- A `position_tranches` row as produced by the tranche query (the joined
`filled_qty` / `actual_entry_price` columns are never read by the code under
study and are omitted). -/
structure Tranche where
  trancheId : Nat
  totalQuantity : ℚ
  avgEntryPrice : ℚ
  tpOrderId : Option String
  slOrderId : Option String
  unrealizedPnl : ℚ
  deriving DecidableEq

/-- An `order_relationships` row. -/
structure OrderRelationship where
  symbol : String
  positionSide : Option String
  trancheId : Option Nat
  tpOrderId : Option String
  slOrderId : Option String
  createdAt : Nat
  deriving DecidableEq

/-- An entry of the exchange's `openOrders` response. -/
structure LiveOpenOrder where
  orderId : String
  type : String
  status : String
  origQty : ℚ
  side : String
  executedQty : ℚ
  deriving DecidableEq

/-- An `order_status` cache row. -/
structure CachedOrder where
  orderId : String
  symbol : String
  side : String
  quantity : ℚ
  price : ℚ
  positionSide : String
  status : String
  deriving DecidableEq

/-- The value stored in the `order_statuses` map for one order id. -/
structure OrderStatusView where
  orderId : String
  status : String
  quantity : ℚ
  side : String
  type : String
  executedQty : ℚ
  deriving DecidableEq

/-- The `summary` object of the route's JSON response. -/
structure Summary where
  totalQuantity : ℚ
  avgEntryPrice : ℚ
  unrealizedPnl : ℚ
  totalMargin : ℚ
  numTranches : Nat
  deriving DecidableEq

/-- Outcomes of the external calls made during one invocation of
`get_position_details`:
* `positionsFetch`: the parsed `positionRisk` body, `none` when the request
  raised or returned a non-200 status (the code then leaves
  `exchange_position = None`);
* `tableExists`: whether the `position_tranches` table exists;
* `tranches`: the rows of the tranche query for the requested symbol/side;
* `relationships`: the full `order_relationships` table (the code filters it);
* `leverageCfg`: the configured leverage for the symbol, `none` when the
  config lookup raises or the symbol/key is absent (the code then keeps 10);
* `apiKey` / `apiSecret`: the configured credentials;
* `openOrdersFetch`: the parsed `openOrders` body, `none` on failure/non-200;
* `statusCache`: the full `order_status` table (the code filters it). -/
structure ReadEnv where
  positionsFetch : Option (List LivePosition)
  tableExists : Bool
  tranches : List Tranche
  relationships : List OrderRelationship
  leverageCfg : Option ℚ
  apiKey : String
  apiSecret : String
  openOrdersFetch : Option (List LiveOpenOrder)
  statusCache : List CachedOrder

/-- The Python substring test `pat in s`, via `splitOn`: a nonempty pattern
occurs in `s` iff splitting on it yields more than one piece. -/
def strContains (s pat : String) : Bool :=
  (s.splitOn pat).length != 1

/-- Line 25: the first position whose symbol matches and whose
`positionAmt` is nonzero; note there is no filter on the side. -/
def livePositionFor (env : ReadEnv) (symbol : String) : Option LivePosition :=
  (env.positionsFetch.getD []).find?
    (fun p => p.symbol == symbol && !(decide (p.positionAmt = 0)))

/-- The tranche rows in play: the query result when `position_tranches`
exists, otherwise the empty list (lines 37 and 85–86). -/
def ledgerTranches (env : ReadEnv) : List Tranche :=
  if env.tableExists then env.tranches else []

/-- The WHERE clause of the per-tranche relationship query (lines 61–68):
symbol, position_side and tranche_id all match and at least one of the two
order ids is non-null. -/
def relMatches (symbol side : String) (tid : Nat) (r : OrderRelationship) : Bool :=
  r.symbol == symbol && r.positionSide == some side && r.trancheId == some tid &&
    (r.tpOrderId.isSome || r.slOrderId.isSome)

/-- `ORDER BY created_at DESC LIMIT 1`: the row with the greatest
`created_at` (the earlier row on a tie). -/
def pickLatest : List OrderRelationship → Option OrderRelationship
  | [] => none
  | r :: rs =>
    match pickLatest rs with
    | none => some r
    | some b => if b.createdAt > r.createdAt then some b else some r

/-- The per-tranche relationship query of lines 61–68. -/
def latestRelationship (rels : List OrderRelationship) (symbol side : String)
    (tid : Nat) : Option OrderRelationship :=
  pickLatest (rels.filter (relMatches symbol side tid))

/-- Lines 70–77: fill the tranche's `tp_order_id` / `sl_order_id` from the
latest relationship row when the tranche's own field is unset. -/
def fillTrancheOrders (rels : List OrderRelationship) (symbol side : String)
    (t : Tranche) : Tranche :=
  match latestRelationship rels symbol side t.trancheId with
  | none => t
  | some r =>
    let t1 := if t.tpOrderId.isNone && r.tpOrderId.isSome
      then { t with tpOrderId := r.tpOrderId } else t
    if t1.slOrderId.isNone && r.slOrderId.isSome
      then { t1 with slOrderId := r.slOrderId } else t1

/-- The tranche list actually returned: relationship fill-in applied to every
row, and, when a live exchange position was found, every `unrealized_pnl`
forced to 0 (lines 57–84). -/
def processedTranches (env : ReadEnv) (symbol side : String) : List Tranche :=
  let filled := (ledgerTranches env).map (fillTrancheOrders env.relationships symbol side)
  if (livePositionFor env symbol).isSome
    then filled.map (fun t => { t with unrealizedPnl := 0 })
    else filled

/-- Lines 107–124: the symbol's relationship rows, kept only when their
`position_side` equals the requested side (a SQL `position_side IS NULL` row
survives the query but fails the Python `==` check). -/
def filterRelationships (rels : List OrderRelationship) (symbol side : String) :
    List OrderRelationship :=
  rels.filter (fun r => r.symbol == symbol && r.positionSide == some side)

/-- Lines 135–143 then 145–153: every `tp_order_id` of every returned tranche
and of every filtered relationship row. -/
def collectTpIds (tranches : List Tranche) (rels : List OrderRelationship) :
    List String :=
  tranches.filterMap Tranche.tpOrderId ++ rels.filterMap OrderRelationship.tpOrderId

/-- Same for `sl_order_id`. -/
def collectSlIds (tranches : List Tranche) (rels : List OrderRelationship) :
    List String :=
  tranches.filterMap Tranche.slOrderId ++ rels.filterMap OrderRelationship.slOrderId

/-- `order_statuses[order_id] = value` on a Python dict: replace in place if
the key exists, else append. -/
def upsert (m : List (String × OrderStatusView)) (k : String)
    (v : OrderStatusView) : List (String × OrderStatusView) :=
  if m.any (fun kv => kv.1 == k)
    then m.map (fun kv => if kv.1 == k then (k, v) else kv)
    else m ++ [(k, v)]

/-- Lines 163–191: whether and how one live open order enters the map. -/
def openOrderEntry (tpIds slIds tpSlIds : List String) (o : LiveOpenOrder) :
    Option (String × OrderStatusView) :=
  if strContains o.type "TAKE_PROFIT" || strContains o.type "STOP" ||
      tpSlIds.contains o.orderId then
    let effType :=
      if tpIds.contains o.orderId && o.type == "LIMIT" then "TP_LIMIT"
      else if slIds.contains o.orderId && strContains o.type "STOP" then "SL_STOP"
      else o.type
    some (o.orderId,
      { orderId := o.orderId, status := o.status, quantity := o.origQty,
        side := o.side, type := effType, executedQty := o.executedQty })
  else none

/-- The loop over the `openOrders` response (lines 163–191). -/
def addOpenOrders (tpIds slIds tpSlIds : List String)
    (m0 : List (String × OrderStatusView)) (orders : List LiveOpenOrder) :
    List (String × OrderStatusView) :=
  orders.foldl
    (fun m o =>
      match openOrderEntry tpIds slIds tpSlIds o with
      | some kv => upsert m kv.1 kv.2
      | none => m) m0

/-- Lines 214–220: the label given to a cache-resolved order. -/
def cacheEntryType (tpIds slIds : List String) (id : String) : String :=
  if tpIds.contains id then "TP_ORDER"
  else if slIds.contains id then "SL_ORDER"
  else "TP/SL"

/-- Lines 201–230: the `order_status` fallback — cache rows for the symbol
whose id is tracked, appended only when the id is not already present. -/
def addCachedOrders (tpIds slIds tpSlIds : List String) (symbol : String)
    (m0 : List (String × OrderStatusView)) (cache : List CachedOrder) :
    List (String × OrderStatusView) :=
  (cache.filter (fun c => c.symbol == symbol && tpSlIds.contains c.orderId)).foldl
    (fun m c =>
      if m.any (fun kv => kv.1 == c.orderId) then m
      else m ++ [(c.orderId,
        { orderId := c.orderId, status := c.status, quantity := c.quantity,
          side := c.side, type := cacheEntryType tpIds slIds c.orderId,
          executedQty := 0 })]) m0

/-- Lines 127 and 155–237: the whole `order_statuses` computation.  The
entire block runs only under `if API_KEY and API_SECRET:` (nonempty strings);
otherwise the map stays empty. -/
def computeOrderStatuses (env : ReadEnv) (symbol : String)
    (tpIds slIds tpSlIds : List String) : List (String × OrderStatusView) :=
  if env.apiKey != "" && env.apiSecret != "" then
    let m1 :=
      match env.openOrdersFetch with
      | some orders => addOpenOrders tpIds slIds tpSlIds [] orders
      | none => []
    addCachedOrders tpIds slIds tpSlIds symbol m1 env.statusCache
  else []

/-- Lines 240–258: the summary in the live-exchange branch. -/
def liveSummary (p : LivePosition) (numTranches : Nat) : Summary :=
  { totalQuantity := |p.positionAmt|
    avgEntryPrice := p.entryPrice
    unrealizedPnl :=
      if p.positionAmt > 0 then (p.markPrice - p.entryPrice) * p.positionAmt
      else if p.positionAmt < 0 then (p.entryPrice - p.markPrice) * |p.positionAmt|
      else 0
    totalMargin := p.initialMargin
    numTranches := numTranches }

/-- Lines 269–275: the leverage lookup in `config.SYMBOL_SETTINGS` under
`try/except`, starting from the default 10. -/
def resolveLeverage (cfg : Option ℚ) : ℚ :=
  cfg.getD 10

/-- Lines 259–276: the summary in the tranche-arithmetic branch. -/
def trancheSummary (tranches : List Tranche) (leverage : ℚ) : Summary :=
  let tq := (tranches.map Tranche.totalQuantity).sum
  let avg :=
    if tq > 0
      then (tranches.map (fun t => t.avgEntryPrice * t.totalQuantity)).sum / tq
      else 0
  { totalQuantity := tq
    avgEntryPrice := avg
    unrealizedPnl := (tranches.map Tranche.unrealizedPnl).sum
    totalMargin := if leverage > 0 then tq * avg / leverage else 0
    numTranches := tranches.length }

/-- Lines 277–282: the all-zero summary when neither source exists. -/
def zeroSummary : Summary :=
  { totalQuantity := 0, avgEntryPrice := 0, unrealizedPnl := 0, totalMargin := 0,
    numTranches := 0 }

/-- Lines 239–282: branch selection for the summary. -/
def readSummary (env : ReadEnv) (symbol side : String) : Summary :=
  match livePositionFor env symbol with
  | some p => liveSummary p (processedTranches env symbol side).length
  | none =>
    let ts := processedTranches env symbol side
    if ts.isEmpty then zeroSummary
    else trancheSummary ts (resolveLeverage env.leverageCfg)

/-- The parts of the route's JSON response the claims are about. -/
structure ReadResult where
  summary : Summary
  tranches : List Tranche
  orderRelationships : List OrderRelationship
  orderStatuses : List (String × OrderStatusView)

/-- The whole read path of `get_position_details`. -/
def getPositionDetails (env : ReadEnv) (symbol side : String) : ReadResult :=
  let ts := processedTranches env symbol side
  let rels := filterRelationships env.relationships symbol side
  let tpIds := collectTpIds ts rels
  let slIds := collectSlIds ts rels
  { summary := readSummary env symbol side
    tranches := ts
    orderRelationships := rels
    orderStatuses := computeOrderStatuses env symbol tpIds slIds (tpIds ++ slIds) }

/-- The order dict built at lines 353–363; `reduceOnly` is an optional key,
present (and `true`) only in one-way mode. -/
structure OrderData where
  symbol : String
  side : String
  type : String
  quantity : ℚ
  positionSide : String
  reduceOnly : Option Bool
  deriving DecidableEq

/-- The JSON result of `close_position`, abstracted to its discriminating
shape. -/
inductive CloseResult where
  | fetchError (code : Nat)
  | notFound
  | noSize
  | simulated
  | closed (orderId : String)
  | submitFailed (code : Nat)
  deriving DecidableEq

/-- One invocation of `close_position` together with its observable effects:
how many `positionRisk` fetches, order submissions and `insert_trade` calls
that reached the ledger it performed, and the order it submitted (if any). -/
structure CloseOutcome where
  result : CloseResult
  submitted : Option OrderData
  exchangeFetches : Nat
  orderSubmissions : Nat
  ledgerWrites : Nat
  deriving DecidableEq

/-- Outcomes of the external calls made during one invocation of
`close_position`:
* `fetchStatus` / `positions`: status and parsed body of the `positionRisk`
  fetch;
* `simulateFlag`: `config.SIMULATE_ONLY`, `none` when the config lookup
  raises (the `except: pass` then proceeds to live trading);
* `submitStatus` / `submitOrderId`: status of the order POST and the
  `orderId` of its body;
* `insertSucceeds`: whether `insert_trade` completes without raising. -/
structure CloseEnv where
  fetchStatus : Nat
  positions : List LivePosition
  simulateFlag : Option Bool
  submitStatus : Nat
  submitOrderId : String
  insertSucceeds : Bool

/-- Lines 315–331: scan the positions for the first row with matching symbol
and nonzero amount whose sign-derived direction matches `side` (any direction
when `side` is `BOTH`). -/
def findTarget (positions : List LivePosition) (symbol side : String) :
    Option LivePosition :=
  positions.find? (fun pos =>
    pos.symbol == symbol && !(decide (pos.positionAmt = 0)) &&
      (if side != "BOTH"
        then (if pos.positionAmt > 0 then "LONG" else "SHORT") == side
        else true))

/-- Lines 340–363: the closing market order for a located position. -/
def buildCloseOrder (symbol : String) (pos : LivePosition) : OrderData :=
  let currentSide : String := if pos.positionAmt > 0 then "LONG" else "SHORT"
  let orderSide : String := if currentSide == "LONG" then "SELL" else "BUY"
  { symbol := symbol
    side := orderSide
    type := "MARKET"
    quantity := |pos.positionAmt|
    positionSide := pos.positionSide
    reduceOnly := if pos.positionSide == "BOTH" then some true else none }

/-- The whole `close_position` route (lines 304–413).  The `positionRisk`
fetch always happens first; the simulate-only check (lines 365–377) runs only
after a position has been located and the order built, and short-circuits the
order submission and the ledger write. -/
def closePosition (env : CloseEnv) (symbol side : String) : CloseOutcome :=
  if env.fetchStatus ≠ 200 then
    { result := .fetchError env.fetchStatus, submitted := none,
      exchangeFetches := 1, orderSubmissions := 0, ledgerWrites := 0 }
  else
    match findTarget env.positions symbol side with
    | none =>
      { result := .notFound, submitted := none,
        exchangeFetches := 1, orderSubmissions := 0, ledgerWrites := 0 }
    | some pos =>
      if pos.positionAmt = 0 then
        { result := .noSize, submitted := none,
          exchangeFetches := 1, orderSubmissions := 0, ledgerWrites := 0 }
      else
        let od := buildCloseOrder symbol pos
        if env.simulateFlag = some true then
          { result := .simulated, submitted := none,
            exchangeFetches := 1, orderSubmissions := 0, ledgerWrites := 0 }
        else if env.submitStatus = 200 then
          { result := .closed env.submitOrderId, submitted := some od,
            exchangeFetches := 1, orderSubmissions := 1,
            ledgerWrites := if env.insertSucceeds then 1 else 0 }
        else
          { result := .submitFailed env.submitStatus, submitted := some od,
            exchangeFetches := 1, orderSubmissions := 1, ledgerWrites := 0 }

/-! ### Concrete inputs used by witnesses and counterexamples -/

/-- Scenario A of the spec: a long live position with size 1.5 (= 3/2),
entry 30000, mark 31000. -/
def posA : LivePosition :=
  { symbol := "BTCUSDT", positionSide := "BOTH", entryPrice := 30000,
    markPrice := 31000, positionAmt := 3 / 2, leverage := 10,
    initialMargin := 4650 }

/-- A read in which the live position above is present and the ledger is
empty. -/
def envA : ReadEnv :=
  { positionsFetch := some [posA], tableExists := false, tranches := [],
    relationships := [], leverageCfg := none, apiKey := "", apiSecret := "",
    openOrdersFetch := none, statusCache := [] }

/-- A read with no live position and two tranches: quantities 2 and 3,
entries 100 and 200, stored PnL 10 and -5. -/
def envB : ReadEnv :=
  { positionsFetch := none, tableExists := true,
    tranches :=
      [{ trancheId := 1, totalQuantity := 2, avgEntryPrice := 100,
         tpOrderId := none, slOrderId := none, unrealizedPnl := 10 },
       { trancheId := 2, totalQuantity := 3, avgEntryPrice := 200,
         tpOrderId := none, slOrderId := none, unrealizedPnl := -5 }],
    relationships := [], leverageCfg := none, apiKey := "", apiSecret := "",
    openOrdersFetch := none, statusCache := [] }

/-- A read with a live position and one ledger tranche carrying a nonzero
stored PnL. -/
def envC : ReadEnv :=
  { positionsFetch := some [posA], tableExists := true,
    tranches :=
      [{ trancheId := 1, totalQuantity := 1, avgEntryPrice := 100,
         tpOrderId := none, slOrderId := none, unrealizedPnl := 42 }],
    relationships := [], leverageCfg := none, apiKey := "", apiSecret := "",
    openOrdersFetch := none, statusCache := [] }

/-- A long one-way live position of size 2. -/
def posD : LivePosition :=
  { symbol := "BTCUSDT", positionSide := "BOTH", entryPrice := 30000,
    markPrice := 30500, positionAmt := 2, leverage := 10,
    initialMargin := 6000 }

/-- A close request hitting `posD` while the simulate-only flag is set. -/
def envD : CloseEnv :=
  { fetchStatus := 200, positions := [posD], simulateFlag := some true,
    submitStatus := 200, submitOrderId := "42", insertSucceeds := true }

/-- A tranche with no order ids of its own. -/
def trE : Tranche :=
  { trancheId := 1, totalQuantity := 1, avgEntryPrice := 100,
    tpOrderId := none, slOrderId := none, unrealizedPnl := 0 }

/-- The older relationship row of tranche 1, naming TP order A. -/
def relE1 : OrderRelationship :=
  { symbol := "BTCUSDT", positionSide := some "LONG", trancheId := some 1,
    tpOrderId := some "A", slOrderId := none, createdAt := 1 }

/-- The newer relationship row of tranche 1, naming TP order B. -/
def relE2 : OrderRelationship :=
  { symbol := "BTCUSDT", positionSide := some "LONG", trancheId := some 1,
    tpOrderId := some "B", slOrderId := none, createdAt := 2 }

/-- A read where tranche 1 has the two relationship rows above with strictly
increasing created_at, and the order-status cache holds a row for the old
order A. -/
def envE : ReadEnv :=
  { positionsFetch := none, tableExists := true,
    tranches := [trE],
    relationships := [relE1, relE2],
    leverageCfg := none, apiKey := "k", apiSecret := "s",
    openOrdersFetch := some [],
    statusCache :=
      [{ orderId := "A", symbol := "BTCUSDT", side := "SELL", quantity := 1,
         price := 110, positionSide := "LONG", status := "FILLED" }] }

/-- A short hedge-mode live position of amount -2. -/
def posF : LivePosition :=
  { symbol := "BTCUSDT", positionSide := "SHORT", entryPrice := 100,
    markPrice := 90, positionAmt := -2, leverage := 10, initialMargin := 20 }

/-- A read for side LONG while the only nonzero live position on the symbol
is the short `posF`, with one ledger tranche of quantity 1. -/
def envF : ReadEnv :=
  { positionsFetch := some [posF],
    tableExists := true,
    tranches :=
      [{ trancheId := 1, totalQuantity := 1, avgEntryPrice := 50,
         tpOrderId := none, slOrderId := none, unrealizedPnl := 7 }],
    relationships := [], leverageCfg := none, apiKey := "", apiSecret := "",
    openOrdersFetch := none, statusCache := [] }

/-- A read with empty API key but a populated ledger and order-status cache:
order G is named as a TP order and has a cache row. -/
def envG : ReadEnv :=
  { positionsFetch := none, tableExists := true,
    tranches :=
      [{ trancheId := 1, totalQuantity := 1, avgEntryPrice := 100,
         tpOrderId := some "G", slOrderId := none, unrealizedPnl := 0 }],
    relationships :=
      [{ symbol := "BTCUSDT", positionSide := some "LONG", trancheId := some 1,
         tpOrderId := some "G", slOrderId := none, createdAt := 1 }],
    leverageCfg := none, apiKey := "", apiSecret := "secret",
    openOrdersFetch := some [],
    statusCache :=
      [{ orderId := "G", symbol := "BTCUSDT", side := "SELL", quantity := 1,
         price := 110, positionSide := "LONG", status := "NEW" }] }

/-- A short hedge-mode live position of amount -5. -/
def posH : LivePosition :=
  { symbol := "ETHUSDT", positionSide := "SHORT", entryPrice := 2000,
    markPrice := 1900, positionAmt := -5, leverage := 10,
    initialMargin := 1000 }

/-- A close request hitting `posH` with the simulate flag unavailable and an
accepting exchange. -/
def envH : CloseEnv :=
  { fetchStatus := 200, positions := [posH], simulateFlag := none,
    submitStatus := 200, submitOrderId := "77", insertSucceeds := true }

/-! ### Helper lemmas -/

theorem fill_tq (rels : List OrderRelationship) (symbol side : String)
    (t : Tranche) :
    (fillTrancheOrders rels symbol side t).totalQuantity = t.totalQuantity := by
  unfold fillTrancheOrders
  cases latestRelationship rels symbol side t.trancheId with
  | none => rfl
  | some r => dsimp only; split <;> split <;> rfl

theorem fill_avg (rels : List OrderRelationship) (symbol side : String)
    (t : Tranche) :
    (fillTrancheOrders rels symbol side t).avgEntryPrice = t.avgEntryPrice := by
  unfold fillTrancheOrders
  cases latestRelationship rels symbol side t.trancheId with
  | none => rfl
  | some r => dsimp only; split <;> split <;> rfl

theorem fill_pnl (rels : List OrderRelationship) (symbol side : String)
    (t : Tranche) :
    (fillTrancheOrders rels symbol side t).unrealizedPnl = t.unrealizedPnl := by
  unfold fillTrancheOrders
  cases latestRelationship rels symbol side t.trancheId with
  | none => rfl
  | some r => dsimp only; split <;> split <;> rfl

theorem map_comp_eq {β : Type} (g : Tranche → Tranche) (ts : List Tranche)
    (f : Tranche → β) (hf : ∀ t, f (g t) = f t) :
    (ts.map g).map f = ts.map f := by
  induction ts with
  | nil => rfl
  | cons a l ih => simp only [List.map_cons, hf, ih]

theorem pickLatest_spec :
    ∀ l : List OrderRelationship, l ≠ [] →
      ∃ r, pickLatest l = some r ∧ r ∈ l ∧ ∀ x ∈ l, x.createdAt ≤ r.createdAt
  | [], h => absurd rfl h
  | a :: l, _ => by
    cases l with
    | nil => exact ⟨a, rfl, by simp, by simp⟩
    | cons b l2 =>
      obtain ⟨r, hr, hmem, hmax⟩ := pickLatest_spec (b :: l2) (by simp)
      have hstep : pickLatest (a :: b :: l2) =
          if r.createdAt > a.createdAt then some r else some a := by
        show (match pickLatest (b :: l2) with
          | none => some a
          | some c => if c.createdAt > a.createdAt then some c else some a) =
          if r.createdAt > a.createdAt then some r else some a
        rw [hr]
      by_cases hgt : r.createdAt > a.createdAt
      · rw [if_pos hgt] at hstep
        exact ⟨r, hstep, List.mem_cons_of_mem _ hmem, fun x hx => by
          rcases List.mem_cons.mp hx with h | h
          · subst h; exact le_of_lt hgt
          · exact hmax x h⟩
      · rw [if_neg hgt] at hstep
        exact ⟨a, hstep, List.mem_cons_self _ _, fun x hx => by
          rcases List.mem_cons.mp hx with h | h
          · subst h; exact le_rfl
          · exact le_trans (hmax x h) (not_lt.mp hgt)⟩

theorem findTarget_spec (positions : List LivePosition) (symbol side : String)
    (pos : LivePosition) (h : findTarget positions symbol side = some pos) :
    pos.symbol = symbol ∧ pos.positionAmt ≠ 0 := by
  have hp := List.find?_some h
  simp only [Bool.and_eq_true, beq_iff_eq, Bool.not_eq_true',
    decide_eq_false_iff_not] at hp
  exact ⟨hp.1.1, hp.1.2⟩

theorem livePositionFor_spec (env : ReadEnv) (symbol : String)
    (p : LivePosition) (h : livePositionFor env symbol = some p) :
    p.symbol = symbol ∧ p.positionAmt ≠ 0 := by
  have hp := List.find?_some h
  simp only [Bool.and_eq_true, beq_iff_eq, Bool.not_eq_true',
    decide_eq_false_iff_not] at hp
  exact hp

/-! ### Claim theorems -/

/-- C1: whenever a live exchange position is present, the returned summary
has total_quantity = |position_amt|, avg_entry_price = entry_price,
total_margin = the live initial_margin verbatim, and unrealized_pnl =
(mark - entry) * amt for a long, (entry - mark) * |amt| for a short, and 0
when flat. -/
theorem live_branch_summary (env : ReadEnv) (symbol side : String)
    (p : LivePosition) (h : livePositionFor env symbol = some p) :
    (getPositionDetails env symbol side).summary.totalQuantity = |p.positionAmt| ∧
    (getPositionDetails env symbol side).summary.avgEntryPrice = p.entryPrice ∧
    (getPositionDetails env symbol side).summary.totalMargin = p.initialMargin ∧
    (0 < p.positionAmt →
      (getPositionDetails env symbol side).summary.unrealizedPnl =
        (p.markPrice - p.entryPrice) * p.positionAmt) ∧
    (p.positionAmt < 0 →
      (getPositionDetails env symbol side).summary.unrealizedPnl =
        (p.entryPrice - p.markPrice) * |p.positionAmt|) ∧
    (p.positionAmt = 0 →
      (getPositionDetails env symbol side).summary.unrealizedPnl = 0) := by
  have hs : (getPositionDetails env symbol side).summary =
      liveSummary p (processedTranches env symbol side).length := by
    show readSummary env symbol side = _
    unfold readSummary
    rw [h]
  rw [hs]
  unfold liveSummary
  refine ⟨rfl, rfl, rfl, ?_, ?_, ?_⟩
  · intro hp
    simp only [if_pos hp]
  · intro hn
    rw [if_neg (by linarith), if_pos hn]
  · intro h0
    rw [if_neg (by simp [h0]), if_neg (by simp [h0])]

/-- Witness for C1 at Scenario A: amount 3/2, entry 30000, mark 31000 gives
unrealized_pnl 1500 and total_quantity 3/2. -/
theorem live_branch_summary_witness :
    livePositionFor envA "BTCUSDT" = some posA ∧
    (getPositionDetails envA "BTCUSDT" "LONG").summary.unrealizedPnl = 1500 ∧
    (getPositionDetails envA "BTCUSDT" "LONG").summary.totalQuantity = 3 / 2 := by
  have h := live_branch_summary envA "BTCUSDT" "LONG" posA
    (by simp [livePositionFor, envA, posA, List.find?])
  refine ⟨by simp [livePositionFor, envA, posA, List.find?], ?_, ?_⟩
  · rw [h.2.2.2.1 (by norm_num [posA])]
    norm_num [posA]
  · rw [h.1]
    norm_num [posA]

/-- C2: the four summary fields are all taken from the live position, or all
from tranche arithmetic, or are all zero — never a mixture. -/
theorem summary_source_exclusive (env : ReadEnv) (symbol side : String) :
    (∃ p, livePositionFor env symbol = some p ∧
      (getPositionDetails env symbol side).summary =
        liveSummary p (getPositionDetails env symbol side).tranches.length) ∨
    (livePositionFor env symbol = none ∧
      (getPositionDetails env symbol side).tranches ≠ [] ∧
      (getPositionDetails env symbol side).summary =
        trancheSummary (getPositionDetails env symbol side).tranches
          (resolveLeverage env.leverageCfg)) ∨
    (livePositionFor env symbol = none ∧
      (getPositionDetails env symbol side).summary = zeroSummary) := by
  have htr : (getPositionDetails env symbol side).tranches =
      processedTranches env symbol side := rfl
  have hsum : (getPositionDetails env symbol side).summary =
      readSummary env symbol side := rfl
  rw [htr, hsum]
  unfold readSummary
  cases h : livePositionFor env symbol with
  | some p => exact Or.inl ⟨p, rfl, rfl⟩
  | none =>
    by_cases he : (processedTranches env symbol side).isEmpty = true
    · refine Or.inr (Or.inr ⟨rfl, ?_⟩)
      simp [he]
    · refine Or.inr (Or.inl ⟨rfl, ?_, ?_⟩)
      · simpa [List.isEmpty_iff] using he
      · simp [he]

/-- C3: with no live position and a nonempty tranche list, the summary is
the tranche arithmetic: summed quantity, weighted-mean entry (0 on zero
total), summed stored PnL, and margin quantity*entry/leverage with leverage
defaulting to 10 on a failed lookup and margin 0 when leverage is 0. -/
theorem tranche_fallback_summary (env : ReadEnv) (symbol side : String)
    (hlive : livePositionFor env symbol = none)
    (htable : env.tableExists = true)
    (hne : env.tranches ≠ []) :
    (getPositionDetails env symbol side).summary.totalQuantity =
      (env.tranches.map Tranche.totalQuantity).sum ∧
    (getPositionDetails env symbol side).summary.avgEntryPrice =
      (if (env.tranches.map Tranche.totalQuantity).sum > 0 then
        (env.tranches.map (fun t => t.avgEntryPrice * t.totalQuantity)).sum /
          (env.tranches.map Tranche.totalQuantity).sum
       else 0) ∧
    (getPositionDetails env symbol side).summary.unrealizedPnl =
      (env.tranches.map Tranche.unrealizedPnl).sum ∧
    (getPositionDetails env symbol side).summary.totalMargin =
      (if resolveLeverage env.leverageCfg > 0 then
        (getPositionDetails env symbol side).summary.totalQuantity *
          (getPositionDetails env symbol side).summary.avgEntryPrice /
            resolveLeverage env.leverageCfg
       else 0) ∧
    (env.leverageCfg = none → resolveLeverage env.leverageCfg = 10) ∧
    (resolveLeverage env.leverageCfg = 0 →
      (getPositionDetails env symbol side).summary.totalMargin = 0) := by
  have hproc : processedTranches env symbol side =
      env.tranches.map (fillTrancheOrders env.relationships symbol side) := by
    unfold processedTranches ledgerTranches
    simp [hlive, htable]
  have hq : ((processedTranches env symbol side).map Tranche.totalQuantity) =
      env.tranches.map Tranche.totalQuantity := by
    rw [hproc]; exact map_comp_eq _ _ _ (fill_tq env.relationships symbol side)
  have hw : ((processedTranches env symbol side).map
        (fun t => t.avgEntryPrice * t.totalQuantity)) =
      env.tranches.map (fun t => t.avgEntryPrice * t.totalQuantity) := by
    rw [hproc]
    exact map_comp_eq _ _ _ (fun t => by
      simp only [fill_avg, fill_tq])
  have hp : ((processedTranches env symbol side).map Tranche.unrealizedPnl) =
      env.tranches.map Tranche.unrealizedPnl := by
    rw [hproc]; exact map_comp_eq _ _ _ (fill_pnl env.relationships symbol side)
  have hne2 : (processedTranches env symbol side).isEmpty = false := by
    rw [hproc]
    simp [List.isEmpty_iff, hne]
  have hs : (getPositionDetails env symbol side).summary =
      trancheSummary (processedTranches env symbol side)
        (resolveLeverage env.leverageCfg) := by
    show readSummary env symbol side = _
    unfold readSummary
    rw [hlive]
    simp [hne2]
  rw [hs]
  refine ⟨?_, ?_, ?_, ?_, ?_, ?_⟩
  · simp [trancheSummary, hq]
  · simp [trancheSummary, hq, hw]
  · simp [trancheSummary, hp]
  · simp [trancheSummary, hq, hw]
  · intro hc
    rw [hc]
    rfl
  · intro h0
    simp [trancheSummary, h0]

/-- Witness for C3 (Scenario B variant and P5/P6): tranches of quantity 2 at
100 and quantity 3 at 200 with stored PnL 10 and -5 give weighted mean 160,
PnL 5, and margin 5*160/10 = 80 under the default leverage. -/
theorem tranche_fallback_summary_witness :
    livePositionFor envB "BTCUSDT" = none ∧
    envB.tableExists = true ∧
    envB.tranches ≠ [] ∧
    (getPositionDetails envB "BTCUSDT" "LONG").summary.avgEntryPrice = 160 ∧
    (getPositionDetails envB "BTCUSDT" "LONG").summary.unrealizedPnl = 5 ∧
    (getPositionDetails envB "BTCUSDT" "LONG").summary.totalMargin = 80 := by
  have h := tranche_fallback_summary envB "BTCUSDT" "LONG" (by rfl) (by rfl)
    (by simp [envB])
  refine ⟨by rfl, rfl, by simp [envB], ?_, ?_, ?_⟩
  · rw [h.2.1]
    norm_num [envB]
  · rw [h.2.2.1]
    norm_num [envB]
  · rw [h.2.2.2.1, h.1, h.2.1]
    norm_num [envB, resolveLeverage]

/-- C4: when a live position is present, every returned tranche has
unrealized_pnl 0 regardless of the stored value, while the quantity and
entry-price fields are returned unchanged from the ledger rows. -/
theorem live_branch_pnl_override (env : ReadEnv) (symbol side : String)
    (p : LivePosition) (h : livePositionFor env symbol = some p) :
    (∀ t ∈ (getPositionDetails env symbol side).tranches, t.unrealizedPnl = 0) ∧
    (getPositionDetails env symbol side).tranches.map
        (fun t => (t.totalQuantity, t.avgEntryPrice)) =
      (ledgerTranches env).map (fun t => (t.totalQuantity, t.avgEntryPrice)) := by
  have ht : (getPositionDetails env symbol side).tranches =
      ((ledgerTranches env).map
        (fillTrancheOrders env.relationships symbol side)).map
        (fun t => { t with unrealizedPnl := 0 }) := by
    show processedTranches env symbol side = _
    unfold processedTranches
    simp only [h, Option.isSome_some, if_true]
  constructor
  · intro t htm
    rw [ht] at htm
    simp only [List.mem_map] at htm
    obtain ⟨x, hx, hxe⟩ := htm
    obtain ⟨a, ha, hae⟩ := hx
    rw [← hxe]
  · calc (getPositionDetails env symbol side).tranches.map
          (fun t => (t.totalQuantity, t.avgEntryPrice))
        = (((ledgerTranches env).map
            (fillTrancheOrders env.relationships symbol side)).map
            (fun t => { t with unrealizedPnl := 0 })).map
            (fun t => (t.totalQuantity, t.avgEntryPrice)) := by rw [ht]
      _ = ((ledgerTranches env).map
            (fillTrancheOrders env.relationships symbol side)).map
            (fun t => (t.totalQuantity, t.avgEntryPrice)) :=
          map_comp_eq (fun t => { t with unrealizedPnl := 0 })
            ((ledgerTranches env).map
              (fillTrancheOrders env.relationships symbol side))
            (fun t => (t.totalQuantity, t.avgEntryPrice)) (fun t => rfl)
      _ = (ledgerTranches env).map (fun t => (t.totalQuantity, t.avgEntryPrice)) :=
          map_comp_eq (fillTrancheOrders env.relationships symbol side)
            (ledgerTranches env)
            (fun t => (t.totalQuantity, t.avgEntryPrice)) (fun t => by
              simp only [fill_tq, fill_avg])

/-- Witness for C4: a live position over a ledger tranche with stored PnL 42
yields a returned tranche with PnL 0 and unchanged quantity/entry. -/
theorem live_branch_pnl_override_witness :
    livePositionFor envC "BTCUSDT" = some posA ∧
    (∀ t ∈ (getPositionDetails envC "BTCUSDT" "LONG").tranches,
      t.unrealizedPnl = 0) ∧
    (getPositionDetails envC "BTCUSDT" "LONG").tranches.map
        (fun t => (t.totalQuantity, t.avgEntryPrice)) =
      (ledgerTranches envC).map (fun t => (t.totalQuantity, t.avgEntryPrice)) := by
  have h := live_branch_pnl_override envC "BTCUSDT" "LONG" posA
    (by simp [livePositionFor, envC, posA, List.find?])
  exact ⟨by simp [livePositionFor, envC, posA, List.find?], h.1, h.2⟩

/-- C5 counterexample: with the simulate-only flag set, `close_position`
still performs the `positionRisk` fetch before the simulate check, so a
simulated close makes one exchange call, not zero. -/
theorem close_simulate_counterexample :
    (closePosition envD "BTCUSDT" "LONG").result = CloseResult.simulated ∧
    (closePosition envD "BTCUSDT" "LONG").orderSubmissions = 0 ∧
    (closePosition envD "BTCUSDT" "LONG").ledgerWrites = 0 ∧
    (closePosition envD "BTCUSDT" "LONG").exchangeFetches = 1 ∧
    (closePosition envD "BTCUSDT" "LONG").exchangeFetches ≠ 0 := by
  have hfind : findTarget envD.positions "BTCUSDT" "LONG" = some posD := by
    simp [findTarget, envD, posD, List.find?]
  have hne : posD.positionAmt ≠ 0 := by norm_num [posD]
  have h200 : envD.fetchStatus = 200 := rfl
  have hsim : envD.simulateFlag = some true := rfl
  unfold closePosition
  simp [h200, hfind, hne, hsim]

/-- C5 amended: when the simulate flag resolves true and a live position is
located, the close returns the simulated success with no order submission
and no ledger write — but only after exactly one exchange (positionRisk)
fetch, which the claim wrongly counted as zero. -/
theorem close_simulate_short_circuit (env : CloseEnv) (symbol side : String)
    (pos : LivePosition) (h200 : env.fetchStatus = 200)
    (hfind : findTarget env.positions symbol side = some pos)
    (hsim : env.simulateFlag = some true) :
    (closePosition env symbol side).result = CloseResult.simulated ∧
    (closePosition env symbol side).orderSubmissions = 0 ∧
    (closePosition env symbol side).ledgerWrites = 0 ∧
    (closePosition env symbol side).exchangeFetches = 1 := by
  have hne : pos.positionAmt ≠ 0 := (findTarget_spec _ _ _ _ hfind).2
  unfold closePosition
  simp [h200, hfind, hne, hsim]

/-- Witness for the amended C5 at `envD`. -/
theorem close_simulate_short_circuit_witness :
    envD.fetchStatus = 200 ∧
    findTarget envD.positions "BTCUSDT" "LONG" = some posD ∧
    envD.simulateFlag = some true ∧
    (closePosition envD "BTCUSDT" "LONG").result = CloseResult.simulated ∧
    (closePosition envD "BTCUSDT" "LONG").orderSubmissions = 0 ∧
    (closePosition envD "BTCUSDT" "LONG").ledgerWrites = 0 ∧
    (closePosition envD "BTCUSDT" "LONG").exchangeFetches = 1 := by
  have hfind : findTarget envD.positions "BTCUSDT" "LONG" = some posD := by
    simp [findTarget, envD, posD, List.find?]
  have h := close_simulate_short_circuit envD "BTCUSDT" "LONG" posD rfl hfind rfl
  exact ⟨rfl, hfind, rfl, h.1, h.2.1, h.2.2.1, h.2.2.2⟩

/-- C6: the close order for a located position has quantity |position_amt|,
the opposite side (long → SELL, short → BUY), the positionSide of the live
position, and reduceOnly present (set true) iff position_side is BOTH; and
it is exactly the order the submission step sends. -/
theorem close_order_shape (env : CloseEnv) (symbol side : String)
    (pos : LivePosition) (h200 : env.fetchStatus = 200)
    (hfind : findTarget env.positions symbol side = some pos) :
    (buildCloseOrder symbol pos).quantity = |pos.positionAmt| ∧
    (0 < pos.positionAmt → (buildCloseOrder symbol pos).side = "SELL") ∧
    (pos.positionAmt < 0 → (buildCloseOrder symbol pos).side = "BUY") ∧
    (buildCloseOrder symbol pos).positionSide = pos.positionSide ∧
    ((buildCloseOrder symbol pos).reduceOnly = some true ↔
      pos.positionSide = "BOTH") ∧
    (pos.positionSide ≠ "BOTH" →
      (buildCloseOrder symbol pos).reduceOnly = none) ∧
    (env.simulateFlag ≠ some true →
      (closePosition env symbol side).submitted =
        some (buildCloseOrder symbol pos)) := by
  have hne : pos.positionAmt ≠ 0 := (findTarget_spec _ _ _ _ hfind).2
  refine ⟨rfl, ?_, ?_, rfl, ?_, ?_, ?_⟩
  · intro hp
    simp [buildCloseOrder, hp]
  · intro hn
    simp [buildCloseOrder, not_lt.mpr (le_of_lt hn)]
  · by_cases hb : pos.positionSide = "BOTH" <;> simp [buildCloseOrder, hb]
  · intro hb
    simp [buildCloseOrder, hb]
  · intro hsim
    unfold closePosition
    simp only [h200, hfind, hne, hsim]
    by_cases hst : env.submitStatus = 200 <;> simp [hst, hne, hsim]

/-- Witness for C6 at `envH`: closing the short -5 hedge position submits a
BUY of 5 with positionSide SHORT and no reduceOnly field. -/
theorem close_order_shape_witness :
    envH.fetchStatus = 200 ∧
    findTarget envH.positions "ETHUSDT" "SHORT" = some posH ∧
    (buildCloseOrder "ETHUSDT" posH).quantity = 5 ∧
    (buildCloseOrder "ETHUSDT" posH).side = "BUY" ∧
    (buildCloseOrder "ETHUSDT" posH).positionSide = "SHORT" ∧
    (buildCloseOrder "ETHUSDT" posH).reduceOnly = none ∧
    (closePosition envH "ETHUSDT" "SHORT").submitted =
      some (buildCloseOrder "ETHUSDT" posH) := by
  have hfind : findTarget envH.positions "ETHUSDT" "SHORT" = some posH := by
    norm_num [findTarget, envH, posH, List.find?]
  have h := close_order_shape envH "ETHUSDT" "SHORT" posH rfl hfind
  refine ⟨rfl, hfind, ?_, ?_, ?_, ?_, ?_⟩
  · rw [h.1]
    rw [abs_of_neg (by norm_num [posH])]
    norm_num [posH]
  · exact h.2.2.1 (by norm_num [posH])
  · rw [h.2.2.2.1]
    rfl
  · exact h.2.2.2.2.2.1 (by simp [posH])
  · exact h.2.2.2.2.2.2 (by simp [envH])

/-- Helper for C7: once the latest relationship row is `m`, the displayed
tranche ids are filled from `m` exactly when the tranche field was unset. -/
theorem fill_displayed_ids (rels : List OrderRelationship) (symbol side : String)
    (t : Tranche) (m : OrderRelationship)
    (h : latestRelationship rels symbol side t.trancheId = some m) :
    (fillTrancheOrders rels symbol side t).tpOrderId =
      (if t.tpOrderId.isNone && m.tpOrderId.isSome then m.tpOrderId
       else t.tpOrderId) ∧
    (fillTrancheOrders rels symbol side t).slOrderId =
      (if t.slOrderId.isNone && m.slOrderId.isSome then m.slOrderId
       else t.slOrderId) := by
  obtain ⟨tid, tq, avg, tp, sl, pnl⟩ := t
  cases tp <;> cases sl <;>
    cases hm1 : m.tpOrderId <;> cases hm2 : m.slOrderId <;>
      simp [fillTrancheOrders, h, hm1, hm2]

/-- C7 counterexample: in `envE` tranche 1 has relationship rows with
created_at 1 (TP id A) and 2 (TP id B).  The displayed tranche TP id is B,
from the latest row; but id A, present only in the older row, is still
collected and classified (as TP_ORDER, via the order-status cache), which
the claim says must never happen. -/
theorem relationship_staleness_counterexample :
    (getPositionDetails envE "BTCUSDT" "LONG").tranches.map Tranche.tpOrderId =
      [some "B"] ∧
    (getPositionDetails envE "BTCUSDT" "LONG").orderStatuses.map Prod.fst =
      ["A"] ∧
    (getPositionDetails envE "BTCUSDT" "LONG").orderStatuses.map
      (fun kv => kv.2.type) = ["TP_ORDER"] ∧
    envE.relationships.map OrderRelationship.createdAt = [1, 2] ∧
    (envE.relationships.filter (fun r => r.tpOrderId == some "A")).map
      OrderRelationship.createdAt = [1] := by
  refine ⟨rfl, rfl, rfl, rfl, rfl⟩

/-- C7 amended: the tranche displayed tp/sl ids do come only from the
relationship row with maximal created_at; but the TP/SL id sets are built
from every relationship row of the symbol and side, so ids appearing only
in older rows are classified as well. -/
theorem relationship_freshness_amended (rels : List OrderRelationship)
    (symbol side : String) (t : Tranche) (m : OrderRelationship)
    (hm : m ∈ rels.filter (relMatches symbol side t.trancheId))
    (hmax : ∀ r ∈ rels.filter (relMatches symbol side t.trancheId),
      r ≠ m → r.createdAt < m.createdAt) :
    latestRelationship rels symbol side t.trancheId = some m ∧
    (fillTrancheOrders rels symbol side t).tpOrderId =
      (if t.tpOrderId.isNone && m.tpOrderId.isSome then m.tpOrderId
       else t.tpOrderId) ∧
    (fillTrancheOrders rels symbol side t).slOrderId =
      (if t.slOrderId.isNone && m.slOrderId.isSome then m.slOrderId
       else t.slOrderId) ∧
    (∀ ts : List Tranche, ∀ r ∈ filterRelationships rels symbol side,
      (∀ i, r.tpOrderId = some i →
        i ∈ collectTpIds ts (filterRelationships rels symbol side)) ∧
      (∀ i, r.slOrderId = some i →
        i ∈ collectSlIds ts (filterRelationships rels symbol side))) := by
  have hlatest : latestRelationship rels symbol side t.trancheId = some m := by
    obtain ⟨r, hr, hmem, hmax2⟩ := pickLatest_spec
      (rels.filter (relMatches symbol side t.trancheId)) (by
        intro hnil
        rw [hnil] at hm
        exact absurd hm (List.not_mem_nil m))
    have hrm : r = m := by
      by_contra hne
      exact absurd (hmax2 m hm) (not_le.mpr (hmax r hmem hne))
    unfold latestRelationship
    rw [← hrm]
    exact hr
  obtain ⟨hfp, hfs⟩ := fill_displayed_ids rels symbol side t m hlatest
  refine ⟨hlatest, hfp, hfs, ?_⟩
  intro ts r hr
  constructor
  · intro i hi
    unfold collectTpIds
    exact List.mem_append_right _ (List.mem_filterMap.mpr ⟨r, hr, hi⟩)
  · intro i hi
    unfold collectSlIds
    exact List.mem_append_right _ (List.mem_filterMap.mpr ⟨r, hr, hi⟩)

/-- Witness for the amended C7 at `envE`: the latest row B wins the display,
while old id A still lands in the TP id set. -/
theorem relationship_freshness_amended_witness :
    relE2 ∈ envE.relationships.filter (relMatches "BTCUSDT" "LONG" trE.trancheId) ∧
    latestRelationship envE.relationships "BTCUSDT" "LONG" trE.trancheId =
      some relE2 ∧
    (fillTrancheOrders envE.relationships "BTCUSDT" "LONG" trE).tpOrderId =
      some "B" ∧
    "A" ∈ collectTpIds []
      (filterRelationships envE.relationships "BTCUSDT" "LONG") := by
  have hm : relE2 ∈
      envE.relationships.filter (relMatches "BTCUSDT" "LONG" trE.trancheId) := by
    simp [envE, relE1, relE2, trE, relMatches]
  have hmax : ∀ r ∈ envE.relationships.filter
      (relMatches "BTCUSDT" "LONG" trE.trancheId),
      r ≠ relE2 → r.createdAt < relE2.createdAt := by
    intro r hr hne
    have : r = relE1 ∨ r = relE2 := by
      have hsub := List.mem_of_mem_filter hr
      simpa [envE] using hsub
    rcases this with h | h
    · rw [h]
      norm_num [relE1, relE2]
    · exact absurd h hne
  have h := relationship_freshness_amended envE.relationships "BTCUSDT" "LONG"
    trE relE2 hm hmax
  refine ⟨hm, h.1, ?_, ?_⟩
  · rw [h.2.1]
    rfl
  · have hr1 : relE1 ∈ filterRelationships envE.relationships "BTCUSDT" "LONG" := by
      simp [envE, relE1, filterRelationships]
    exact (h.2.2.2 [] relE1 hr1).1 "A" rfl

/-- C8 counterexample: a LONG read of `envF`, whose only nonzero live
position is the short `posF`, takes its summary from that short position
(quantity 2, PnL (100-90)*2 = 20) instead of falling back to the tranche
arithmetic (quantity 1): the code never checks the requested direction when
selecting the live position. -/
theorem read_side_mismatch_counterexample :
    livePositionFor envF "BTCUSDT" = some posF ∧
    posF.positionAmt < 0 ∧
    (getPositionDetails envF "BTCUSDT" "LONG").summary.totalQuantity = 2 ∧
    (getPositionDetails envF "BTCUSDT" "LONG").summary.unrealizedPnl = 20 ∧
    (envF.tranches.map Tranche.totalQuantity).sum = 1 ∧
    (getPositionDetails envF "BTCUSDT" "LONG").summary.totalQuantity ≠
      (envF.tranches.map Tranche.totalQuantity).sum := by
  have hlf : livePositionFor envF "BTCUSDT" = some posF := by
    simp [livePositionFor, envF, posF, List.find?]
  have hs : (getPositionDetails envF "BTCUSDT" "LONG").summary =
      liveSummary posF (processedTranches envF "BTCUSDT" "LONG").length := by
    show readSummary envF "BTCUSDT" "LONG" = _
    unfold readSummary
    rw [hlf]
  have habs : |posF.positionAmt| = 2 := by
    rw [abs_of_neg (by norm_num [posF])]
    norm_num [posF]
  refine ⟨hlf, by norm_num [posF], ?_, ?_, by simp [envF], ?_⟩
  · rw [hs]
    simp only [liveSummary]
    rw [habs]
  · rw [hs]
    simp only [liveSummary]
    rw [if_neg (by norm_num [posF]), if_pos (by norm_num [posF]), habs]
    norm_num [posF]
  · rw [hs]
    simp only [liveSummary]
    rw [habs]
    norm_num [envF]

/-- C8 amended: the live position used for the summary is the first fetched
row with matching symbol and nonzero amount; the requested direction is
never consulted, so when such a row exists — even of the opposite side — it
determines the summary for every requested side. -/
theorem live_selection_ignores_side (env : ReadEnv) (symbol : String)
    (p : LivePosition)
    (h : (env.positionsFetch.getD []).find?
        (fun q => q.symbol == symbol && !(decide (q.positionAmt = 0))) =
      some p) :
    p.symbol = symbol ∧ p.positionAmt ≠ 0 ∧
    ∀ side : String, (getPositionDetails env symbol side).summary =
      liveSummary p (getPositionDetails env symbol side).tranches.length := by
  have hl : livePositionFor env symbol = some p := h
  obtain ⟨h1, h2⟩ := livePositionFor_spec env symbol p hl
  refine ⟨h1, h2, fun side => ?_⟩
  show readSummary env symbol side = _
  unfold readSummary
  rw [hl]
  rfl

/-- Witness for the amended C8 at `envF`: the short row is selected for the
LONG read and yields the summary. -/
theorem live_selection_ignores_side_witness :
    (envF.positionsFetch.getD []).find?
        (fun q => q.symbol == "BTCUSDT" && !(decide (q.positionAmt = 0))) =
      some posF ∧
    posF.positionAmt < 0 ∧
    (getPositionDetails envF "BTCUSDT" "LONG").summary =
      liveSummary posF (getPositionDetails envF "BTCUSDT" "LONG").tranches.length := by
  have hfind : (envF.positionsFetch.getD []).find?
      (fun q => q.symbol == "BTCUSDT" && !(decide (q.positionAmt = 0))) =
      some posF := by
    simp [envF, posF, List.find?]
  exact ⟨hfind, by norm_num [posF],
    (live_selection_ignores_side envF "BTCUSDT" posF hfind).2.2 "LONG"⟩

/-- C9: once the order submission is accepted, the close reports success
with the order id whether or not the ledger insert_trade call fails — the
audit-write failure is swallowed. -/
theorem close_ledger_failure_swallowed (env : CloseEnv) (symbol side : String)
    (pos : LivePosition) (h200 : env.fetchStatus = 200)
    (hfind : findTarget env.positions symbol side = some pos)
    (hsim : env.simulateFlag ≠ some true)
    (hsub : env.submitStatus = 200) :
    (closePosition { env with insertSucceeds := false } symbol side).result =
      CloseResult.closed env.submitOrderId ∧
    (closePosition { env with insertSucceeds := true } symbol side).result =
      CloseResult.closed env.submitOrderId ∧
    (closePosition env symbol side).result =
      CloseResult.closed env.submitOrderId := by
  have hne : pos.positionAmt ≠ 0 := (findTarget_spec _ _ _ _ hfind).2
  refine ⟨?_, ?_, ?_⟩ <;>
    · unfold closePosition
      simp [h200, hfind, hne, hsim, hsub]

/-- Witness for C9 at `envH` with a failing ledger write. -/
theorem close_ledger_failure_swallowed_witness :
    envH.fetchStatus = 200 ∧
    findTarget envH.positions "ETHUSDT" "SHORT" = some posH ∧
    envH.simulateFlag ≠ some true ∧
    envH.submitStatus = 200 ∧
    (closePosition { envH with insertSucceeds := false } "ETHUSDT" "SHORT").result =
      CloseResult.closed "77" ∧
    (closePosition envH "ETHUSDT" "SHORT").result = CloseResult.closed "77" := by
  have hfind : findTarget envH.positions "ETHUSDT" "SHORT" = some posH := by
    norm_num [findTarget, envH, posH, List.find?]
  have h := close_ledger_failure_swallowed envH "ETHUSDT" "SHORT" posH rfl hfind
    (by simp [envH]) rfl
  exact ⟨rfl, hfind, by simp [envH], rfl, h.1, h.2.2⟩

/-- C10: with either API credential empty, the order_statuses map of the
read is empty — neither the open-orders fetch nor the cache fallback is
consulted, whatever the ledger and cache contain. -/
theorem no_credentials_empty_order_statuses (env : ReadEnv)
    (symbol side : String) (h : env.apiKey = "" ∨ env.apiSecret = "") :
    (getPositionDetails env symbol side).orderStatuses = [] := by
  have hc : (env.apiKey != "" && env.apiSecret != "") = false := by
    rcases h with h | h <;> simp [h]
  show computeOrderStatuses env symbol _ _ _ = []
  unfold computeOrderStatuses
  simp [hc]

/-- Witness for C10 at `envG`: the ledger names TP order G and the cache
holds a row for it, yet the empty API key leaves order_statuses empty. -/
theorem no_credentials_empty_order_statuses_witness :
    (envG.apiKey = "" ∨ envG.apiSecret = "") ∧
    envG.statusCache ≠ [] ∧
    (getPositionDetails envG "BTCUSDT" "LONG").orderStatuses = [] :=
  ⟨Or.inl rfl, by simp [envG],
    no_credentials_empty_order_statuses envG "BTCUSDT" "LONG" (Or.inl rfl)⟩

end PositionRoutes
